import Mathlib

/-
Verification of the Qdrant database adapter (src/client.ts).

The adapter is embedded shallowly:
* JS numbers are modelled as exact rationals together with the three
  non-finite values (`JSNum`); `Number(x.toFixed(6))` is modelled by
  exact decimal rounding (`toFixed6`).
* Dynamic payload objects are modelled as association lists of
  `String × PValue`, read through `pget` with JS truthiness (`pvTruthy`).
* Every remote call to the vector store (`search`, `scroll`, `retrieve`,
  `upsert`) is recorded in a trace; responses come from an explicit
  oracle `Db` so that the adapter's remote behaviour is a pure function
  of the oracle.
* The in-memory cache `cacheM : Map<string,string>` stores
  `JSON.stringify(results)`; serialization of a result list is modelled
  as the identity (JSON round-trips these records), so the cache maps
  composite keys to result lists directly.
-/

namespace Qdrant

/-- JS number: exact rational for finite doubles, plus NaN and the two
infinities.  `Number.isFinite` is false exactly on the three non-finite
constructors. -/
inductive JSNum where
  | nan
  | posInf
  | negInf
  | fin (q : ℚ)
  deriving DecidableEq

/-- The exact rational of a JS decimal literal: `decimalLit m e` is
`m / 10^e` (written with `Rat.divInt` so that it evaluates). -/
def decimalLit (m : ℤ) (e : ℕ) : ℚ := Rat.divInt m (10 ^ e)

/-- Model of `Number(n.toFixed(6))`: round the magnitude to 6 decimal
places with ties going to the larger value (ECMA `toFixed` rounds the
magnitude after splitting off the sign), then restore the sign.  For
`q = n/d` the rounded magnitude is `⌊(|n|⬝10^6)/d + 1/2⌋`, written with
explicit natural division so that it evaluates. -/
def toFixed6 (q : ℚ) : ℚ :=
  let mag : ℕ := (2 * q.num.natAbs * 1000000 + q.den) / (2 * q.den)
  if q.num < 0 then Rat.divInt (-(mag : ℤ)) 1000000 else Rat.divInt (mag : ℤ) 1000000

/-- The element-wise cleaning in `searchMemoriesByEmbedding`:
`if (!Number.isFinite(n)) return 0; return Number(n.toFixed(6))`. -/
def cleanNum : JSNum → JSNum
  | .fin q => .fin (toFixed6 q)
  | _ => .fin 0

/-- `Number.prototype.toString` for the model; finite values are printed
as exact rationals (the claims only depend on this map being a function
of the number, and on `Array.prototype.toString` joining with commas). -/
def jsNumToString : JSNum → String
  | .nan => "NaN"
  | .posInf => "Infinity"
  | .negInf => "-Infinity"
  | .fin q => toString q

/-- `Array.prototype.toString`, i.e. `join(",")`, used for the
`searchKnowledge` cache key `agentId:embedding.toString()`. -/
def jsNumListToString (xs : List JSNum) : String :=
  String.intercalate "," (xs.map jsNumToString)

/-- Dynamic payload value (the adapter's payloads are loosely typed
JSON-like objects read back with unchecked casts). -/
inductive PValue where
  | null
  | str (s : String)
  | bool (b : Bool)
  | num (q : ℚ)
  | obj (fields : List (String × PValue))

/-- Key lookup on a payload object (`payload?.key`); `none` models
`undefined`. -/
def pget : List (String × PValue) → String → Option PValue
  | [], _ => none
  | (k, v) :: rest, key => if k = key then some v else pget rest key

/-- JS truthiness of a payload value. -/
def pvTruthy : PValue → Bool
  | .null => false
  | .str s => s ≠ ""
  | .bool b => b
  | .num q => q ≠ 0
  | .obj _ => true

/-- `x || d` on an optional payload value (`undefined` and falsy values
fall back to the default). -/
def jsOr (v : Option PValue) (d : PValue) : PValue :=
  match v with
  | some x => if pvTruthy x then x else d
  | none => d

/-- `String(v)` on a payload value. -/
def stringJS : PValue → String
  | .null => "null"
  | .str s => s
  | .bool b => if b then "true" else "false"
  | .num q => toString q
  | .obj _ => "[object Object]"

/-- `x || d` for an optional JS number modelled as a rational
(`0` is falsy). -/
def jsOrQ (v : Option ℚ) (d : ℚ) : ℚ :=
  match v with
  | some q => if q = 0 then d else q
  | none => d

/-- `x || d` for an optional count (`0` is falsy). -/
def jsOrNat (v : Option ℕ) (d : ℕ) : ℕ :=
  match v with
  | some n => if n = 0 then d else n
  | none => d

/-- Truthiness of an optional string parameter (`undefined` and `""` are
falsy). -/
def optStrTruthy : Option String → Bool
  | some s => s ≠ ""
  | none => false

/-- Truthiness of an optional numeric parameter (`undefined` and `0` are
falsy). -/
def optQTruthy : Option ℚ → Bool
  | some q => q ≠ 0
  | none => false

/-- `Boolean.prototype.toString`. -/
def boolToString (b : Bool) : String := if b then "true" else "false"

/-- One condition of a Qdrant filter: either a `match` equality on a
payload key or a `range` condition with optional `gte`/`lte` bounds. -/
inductive FilterCond where
  | matchEq (key : String) (value : PValue)
  | range (key : String) (gte : Option ℚ) (lte : Option ℚ)

/-- A Qdrant filter as built by the adapter: a `must` conjunction. -/
structure QFilter where
  must : List FilterCond

/-- A point sent to the store by `upsert`. -/
structure UPoint where
  id : String
  vector : List JSNum
  payload : List (String × PValue)

/-- A point coming back from the store (`search`/`scroll`/`retrieve`
row); `score` is present only on search results and `vector` only when
the store returned one. -/
structure RPoint where
  id : String
  score : Option ℚ
  payload : List (String × PValue)
  vector : Option (List JSNum)

/-- Request of `db.search`; optional fields record which options the
call site actually passed. -/
structure SearchReq where
  vector : List JSNum
  limit : Option ℕ
  score_threshold : Option ℚ
  filter : Option QFilter
  with_payload : Option Bool
  with_vector : Option Bool

/-- Request of `db.scroll`. -/
structure ScrollReq where
  limit : ℕ
  filter : QFilter
  with_payload : Bool
  with_vector : Bool

/-- Request of `db.retrieve`. -/
structure RetrieveReq where
  ids : List String

/-- Request of `db.upsert`. -/
structure UpsertReq where
  wait : Bool
  points : List UPoint

/-- One remote call issued to the vector store client. -/
inductive RemoteCall where
  | search (req : SearchReq)
  | scroll (req : ScrollReq)
  | retrieve (req : RetrieveReq)
  | upsert (req : UpsertReq)

/-- Whether a remote call is an id-based retrieval. -/
def RemoteCall.isRetrieveCall : RemoteCall → Bool
  | .retrieve _ => true
  | _ => false

/-- Whether a remote call is a similarity search. -/
def RemoteCall.isSearchCall : RemoteCall → Bool
  | .search _ => true
  | _ => false

/-- The query vector of a remote call, when it is a similarity search. -/
def RemoteCall.searchVector : RemoteCall → Option (List JSNum)
  | .search req => some req.vector
  | _ => none

/-- The `unique` payload values of all points upserted by a trace. -/
def storedUniqueValues : List RemoteCall → List PValue
  | [] => []
  | .upsert req :: rest =>
      req.points.filterMap (fun pt => pget pt.payload "unique") ++ storedUniqueValues rest
  | _ :: rest => storedUniqueValues rest

/-- Oracle for the remote store: the responses the Qdrant client would
return for each request. -/
structure Db where
  search : SearchReq → List RPoint
  scroll : ScrollReq → List RPoint
  retrieve : RetrieveReq → List RPoint

/-
RFC 4122 version-5 UUID derivation (`v5` from the `uuid` package), used
by `buildQdrantID`: SHA-1 over the namespace bytes followed by the
UTF-8 bytes of the name, with version and variant bits forced.
Machine words are naturals reduced mod 2^32.
-/

/-- Truncation to 32 bits. -/
def w32 (x : ℕ) : ℕ := x % 4294967296

/-- 32-bit left rotation. -/
def rotl32 (s x : ℕ) : ℕ := (w32 (x <<< s)) ||| (x >>> (32 - s))

/-- Big-endian byte list of width `k` for the value `n`. -/
def beBytes (k : ℕ) (n : ℕ) : List ℕ :=
  (List.range k).map (fun i => (n >>> (8 * (k - 1 - i))) % 256)

/-- SHA-1 padding: append `0x80`, zero bytes up to 56 mod 64, then the
64-bit big-endian bit length. -/
def sha1Pad (msg : List ℕ) : List ℕ :=
  let zeros := (64 + 56 - ((msg.length + 1) % 64)) % 64
  msg ++ [128] ++ List.replicate zeros 0 ++ beBytes 8 (msg.length * 8)

/-- Group bytes into big-endian 32-bit words. -/
def bytesToWords : List ℕ → List ℕ
  | b0 :: b1 :: b2 :: b3 :: rest =>
      ((b0 <<< 24) ||| (b1 <<< 16) ||| (b2 <<< 8) ||| b3) :: bytesToWords rest
  | _ => []

/-- Group words into blocks of 16; the fuel bounds the recursion and is
instantiated with the list length. -/
def wordsToBlocks (fuel : ℕ) (ws : List ℕ) : List (List ℕ) :=
  match fuel, ws with
  | 0, _ => []
  | _, [] => []
  | f + 1, ws => ws.take 16 :: wordsToBlocks f (ws.drop 16)

/-- Extend the message schedule; `acc` holds the words produced so far
in reverse order, so `acc.getD (k-1) 0` is `w[i-k]`. -/
def sha1Extend (fuel : ℕ) (acc : List ℕ) : List ℕ :=
  match fuel with
  | 0 => acc
  | f + 1 =>
      let g := fun k => acc.getD (k - 1) 0
      sha1Extend f (rotl32 1 (((g 3).xor (g 8)).xor ((g 14).xor (g 16))) :: acc)

/-- The 80-word message schedule of one 16-word block. -/
def sha1Schedule (block : List ℕ) : List ℕ :=
  (sha1Extend 64 block.reverse).reverse

/-- The 80 compression rounds; `i` is the round index. -/
def sha1Rounds (i : ℕ) (ws : List ℕ) (st : ℕ × ℕ × ℕ × ℕ × ℕ) : ℕ × ℕ × ℕ × ℕ × ℕ :=
  match ws with
  | [] => st
  | wi :: rest =>
      let (a, b, c, d, e) := st
      let f :=
        if i < 20 then (b &&& c) ||| ((b.xor 4294967295) &&& d)
        else if i < 40 then (b.xor c).xor d
        else if i < 60 then (b &&& c) ||| (b &&& d) ||| (c &&& d)
        else (b.xor c).xor d
      let k :=
        if i < 20 then 1518500249
        else if i < 40 then 1859775393
        else if i < 60 then 2400959708
        else 3395469782
      let temp := w32 (rotl32 5 a + f + e + k + wi)
      sha1Rounds (i + 1) rest (temp, a, rotl32 30 b, c, d)

/-- Fold the compression function over all blocks. -/
def sha1Blocks : List (List ℕ) → ℕ × ℕ × ℕ × ℕ × ℕ → ℕ × ℕ × ℕ × ℕ × ℕ
  | [], h => h
  | block :: rest, (h0, h1, h2, h3, h4) =>
      let (a, b, c, d, e) := sha1Rounds 0 (sha1Schedule block) (h0, h1, h2, h3, h4)
      sha1Blocks rest (w32 (h0 + a), w32 (h1 + b), w32 (h2 + c), w32 (h3 + d), w32 (h4 + e))

/-- SHA-1 of a byte list, as a 20-byte list. -/
def sha1 (msg : List ℕ) : List ℕ :=
  let ws := bytesToWords (sha1Pad msg)
  let (h0, h1, h2, h3, h4) :=
    sha1Blocks (wordsToBlocks ws.length ws)
      (1732584193, 4023233417, 2562383102, 271733878, 3285377520)
  beBytes 4 h0 ++ beBytes 4 h1 ++ beBytes 4 h2 ++ beBytes 4 h3 ++ beBytes 4 h4

/-- UTF-8 encoding of one character. -/
def utf8Char (c : Char) : List ℕ :=
  let n := c.toNat
  if n < 128 then [n]
  else if n < 2048 then [192 ||| (n >>> 6), 128 ||| (n &&& 63)]
  else if n < 65536 then
    [224 ||| (n >>> 12), 128 ||| ((n >>> 6) &&& 63), 128 ||| (n &&& 63)]
  else
    [240 ||| (n >>> 18), 128 ||| ((n >>> 12) &&& 63),
     128 ||| ((n >>> 6) &&& 63), 128 ||| (n &&& 63)]

/-- UTF-8 bytes of a string (`stringToBytes` in the `uuid` package). -/
def utf8Bytes (s : String) : List ℕ :=
  (s.toList.map utf8Char).flatten

/-- Value of one hex digit character. -/
def hexVal (c : Char) : ℕ :=
  if '0' ≤ c ∧ c ≤ '9' then c.toNat - 48
  else if 'a' ≤ c ∧ c ≤ 'f' then c.toNat - 87
  else if 'A' ≤ c ∧ c ≤ 'F' then c.toNat - 55
  else 0

/-- Bytes of a hex string (dashes already removed). -/
def hexToBytes : List Char → List ℕ
  | a :: b :: rest => (hexVal a * 16 + hexVal b) :: hexToBytes rest
  | _ => []

/-- Parse a UUID string into its 16 bytes (`parse` in the `uuid`
package). -/
def uuidParse (s : String) : List ℕ :=
  hexToBytes (s.toList.filter (fun c => c ≠ '-'))

/-- Lowercase hex digits of one byte. -/
def byteToHex (n : ℕ) : List Char :=
  let digits := "0123456789abcdef".toList
  [digits.getD (n / 16) '0', digits.getD (n % 16) '0']

/-- Render 16 bytes in the 8-4-4-4-12 UUID format (`stringify` in the
`uuid` package). -/
def uuidStringify (bs : List ℕ) : String :=
  let hex := fun (l : List ℕ) => String.mk (l.map byteToHex).flatten
  hex (bs.take 4) ++ "-" ++ hex ((bs.drop 4).take 2) ++ "-" ++
    hex ((bs.drop 6).take 2) ++ "-" ++ hex ((bs.drop 8).take 2) ++ "-" ++
    hex (bs.drop 10)

/-- `v5(name, namespace)` from the `uuid` package. -/
def uuidv5 (name : String) (namespaceUUID : String) : String :=
  let data := uuidParse namespaceUUID ++ utf8Bytes name
  let h := (sha1 data).take 16
  let bs :=
    h.take 6 ++ [((h.getD 6 0) &&& 15) ||| 80] ++ [h.getD 7 0] ++
      [((h.getD 8 0) &&& 63) ||| 128] ++ h.drop 9
  uuidStringify bs

/-- The adapter's fixed v5 namespace (`qdrantV5UUIDNamespace`). -/
def qdrantV5UUIDNamespace : String := "00000000-0000-0000-0000-000000000000"

/-- `buildQdrantID`: deterministic v5 UUID of an external id. -/
def buildQdrantID (id : String) : String := uuidv5 id qdrantV5UUIDNamespace

/-
Knowledge operations (`createKnowledge`, `getKnowledge`,
`searchKnowledge`) and the cache they use.
-/

/-- A `RAGKnowledgeItem` as built back from a store row by
`getKnowledge`/`searchKnowledge`.  `agentId` keeps the raw payload value
(`(row.payload?.agentId || "") as UUID` is an unchecked cast),
`metadata` is the whole payload, and `similarity` is attached only by
`searchKnowledge`. -/
structure KnowledgeRead where
  id : String
  agentId : PValue
  text : String
  metadata : List (String × PValue)
  embedding : Option (List JSNum)
  createdAt : Option PValue
  similarity : Option ℚ

/-- Row mapper of `getKnowledge` (the read direction of the record
mapper): the text is read from the `description` payload key. -/
def knowledgeFromRetrievedRow (row : RPoint) : KnowledgeRead :=
  { id := row.id
    agentId := jsOr (pget row.payload "agentId") (.str "")
    text := stringJS (jsOr (pget row.payload "description") (.str ""))
    metadata := row.payload
    embedding := row.vector
    createdAt := pget row.payload "createdAt"
    similarity := none }

/-- Row mapper of `searchKnowledge`: as in `getKnowledge` plus
`similarity: row.score || 0`. -/
def knowledgeFromSearchRow (row : RPoint) : KnowledgeRead :=
  { knowledgeFromRetrievedRow row with similarity := some (jsOrQ row.score 0) }

/-- Input of `createKnowledge` (a `RAGKnowledgeItem` to be written):
the metadata is an arbitrary payload object when present. -/
structure KnowledgeInput where
  id : String
  agentId : String
  text : String
  metadata : Option (List (String × PValue))
  embedding : Option (List JSNum)
  createdAt : Option ℚ

/-- Truthiness of `metadata.isShared` (the metadata object defaults to
`{}`). -/
def knowledgeIsShared (k : KnowledgeInput) : Bool :=
  match pget (k.metadata.getD []) "isShared" with
  | some v => pvTruthy v
  | none => false

/-- The point built by `createKnowledge` (the write direction of the
record mapper).  `now` models `Date.now()`. -/
def createKnowledgePoint (now : ℚ) (k : KnowledgeInput) : UPoint :=
  let m := k.metadata.getD []
  let shared := knowledgeIsShared k
  { id := buildQdrantID k.id
    vector := k.embedding.getD []
    payload :=
      [("agentId", if shared then .null else .str k.agentId),
       ("content", .obj [("text", .str k.text), ("metadata", .obj m)]),
       ("createdAt", .num (jsOrQ k.createdAt now)),
       ("isMain", jsOr (pget m "isMain") (.bool false)),
       ("originalId", jsOr (pget m "originalId") .null),
       ("chunkIndex", jsOr (pget m "chunkIndex") .null),
       ("isShared", jsOr (pget m "isShared") (.bool false))] }

/-- `createKnowledge`: maps the record and issues one acknowledged
upsert. -/
def createKnowledge (now : ℚ) (k : KnowledgeInput) : List RemoteCall :=
  [.upsert { wait := true, points := [createKnowledgePoint now k] }]

/-- Parameters of `getKnowledge`. -/
structure GetKnowledgeParams where
  query : Option String := none
  id : Option String := none
  conversationContext : Option String := none
  limit : Option ℕ := none
  agentId : Option String := none

/-- `getKnowledge`: one retrieve conditioned on the supplied id (empty
id list when no id was passed). -/
def getKnowledge (db : Db) (params : GetKnowledgeParams) :
    List KnowledgeRead × List RemoteCall :=
  let req : RetrieveReq := { ids := match params.id with | some i => [i] | none => [] }
  ((db.retrieve req).map knowledgeFromRetrievedRow, [.retrieve req])

/-- Adapter state: the configured embedding dimension and the unbounded
in-memory cache map. -/
structure AdapterState where
  vectorSize : ℕ
  cacheM : List (String × List KnowledgeRead)

/-- `Map.get`. -/
def assocGet {α : Type} : List (String × α) → String → Option α
  | [], _ => none
  | (k, v) :: rest, key => if k = key then some v else assocGet rest key

/-- `Map.set`: overwrite in place or append. -/
def assocSet {α : Type} : List (String × α) → String → α → List (String × α)
  | [], key, v => [(key, v)]
  | (k, w) :: rest, key, v =>
      if k = key then (key, v) :: rest else (k, w) :: assocSet rest key v

/-- `Map.delete`, also reporting whether the key existed. -/
def assocDel {α : Type} : List (String × α) → String → List (String × α) × Bool
  | [], _ => ([], false)
  | (k, w) :: rest, key =>
      if k = key then (rest, true)
      else
        let r := assocDel rest key
        ((k, w) :: r.1, r.2)

/-- `buildKey`: composite cache key `agentId:key`. -/
def buildKey (agentId key : String) : String := agentId ++ ":" ++ key

/-- `getCache`. -/
def getCache (st : AdapterState) (agentId key : String) : Option (List KnowledgeRead) :=
  assocGet st.cacheM (buildKey agentId key)

/-- `setCache` (always returns `true`). -/
def setCache (st : AdapterState) (agentId key : String) (value : List KnowledgeRead) :
    AdapterState × Bool :=
  ({ st with cacheM := assocSet st.cacheM (buildKey agentId key) value }, true)

/-- `deleteCache`. -/
def deleteCache (st : AdapterState) (agentId key : String) : AdapterState × Bool :=
  let r := assocDel st.cacheM (buildKey agentId key)
  ({ st with cacheM := r.1 }, r.2)

/-- Parameters of `searchKnowledge`. -/
structure SearchKnowledgeParams where
  agentId : String
  embedding : List JSNum
  match_threshold : Option ℚ := none
  match_count : Option ℕ := none
  searchText : Option String := none

/-- `searchKnowledge`: cache lookup under
`agentId:embedding.toString()`; on a hit the cached (deserialized)
result is returned with no remote call; on a miss the adapter issues
one `db.search` with the raw query embedding and `with_vector: true`
(no limit, no threshold, no filter), maps the rows, and writes the
result through the cache.  The truthiness test `if (cachedResult)` is
a hit whenever the key is present, since `JSON.stringify` of a result
array is never the empty string. -/
def searchKnowledge (st : AdapterState) (db : Db) (params : SearchKnowledgeParams) :
    List KnowledgeRead × AdapterState × List RemoteCall :=
  let cacheKey := params.agentId ++ ":" ++ jsNumListToString params.embedding
  match getCache st params.agentId cacheKey with
  | some cached => (cached, st, [])
  | none =>
      let req : SearchReq :=
        { vector := params.embedding, limit := none, score_threshold := none,
          filter := none, with_payload := none, with_vector := some true }
      let results := (db.search req).map knowledgeFromSearchRow
      (results, (setCache st params.agentId cacheKey results).1, [.search req])

/-
Memory operations (`createMemory`, `getMemories`, `searchMemories`,
`searchMemoriesByEmbedding`).
-/

/-- A `Memory` to be written by `createMemory`. -/
structure MemoryInput where
  id : Option String
  userId : String
  roomId : String
  agentId : String
  content : PValue
  embedding : Option (List JSNum)
  unique : Option Bool

/-- A `Memory` as read back from a store row; the payload fields are
kept raw (the source reads them with unchecked casts, so an absent key
is `undefined`). -/
structure MemoryRead where
  id : Option PValue
  type : Option PValue
  content : Option PValue
  embedding : List JSNum
  userId : Option PValue
  roomId : Option PValue
  agentId : Option PValue
  unique : Option PValue
  createdAt : Option PValue
  similarity : Option ℚ

/-- Row mapper of `getMemories` (scroll results; no similarity). -/
def memoryFromScrollRow (row : RPoint) : MemoryRead :=
  { id := pget row.payload "id"
    type := pget row.payload "type"
    content := pget row.payload "content"
    embedding := row.vector.getD []
    userId := pget row.payload "userId"
    roomId := pget row.payload "roomId"
    agentId := pget row.payload "agentId"
    unique := pget row.payload "unique"
    createdAt := pget row.payload "createdAt"
    similarity := none }

/-- Row mapper of `searchMemories`: `similarity: result.score` (raw,
possibly undefined). -/
def memoryFromSearchRow (row : RPoint) : MemoryRead :=
  { memoryFromScrollRow row with similarity := row.score }

/-- Row mapper of `searchMemoriesByEmbedding`:
`similarity: result.score || 0`. -/
def memoryFromEmbeddingRow (row : RPoint) : MemoryRead :=
  { memoryFromScrollRow row with similarity := some (jsOrQ row.score 0) }

/-- Parameters of `searchMemoriesByEmbedding`. -/
structure SMBEParams where
  match_threshold : Option ℚ := none
  count : Option ℕ := none
  roomId : Option String := none
  agentId : Option String := none
  unique : Option Bool := none
  tableName : String

/-- The filter built by `searchMemoriesByEmbedding`: `type` always;
`unique` (as its string form), `agentId` and `roomId` only when the
parameter is truthy. -/
def smbeFilter (p : SMBEParams) : QFilter :=
  { must :=
      [FilterCond.matchEq "type" (.str p.tableName)] ++
      (match p.unique with
       | some u => if u then [FilterCond.matchEq "unique" (.str (boolToString u))] else []
       | none => []) ++
      (match p.agentId with
       | some a => if a ≠ "" then [FilterCond.matchEq "agentId" (.str a)] else []
       | none => []) ++
      (match p.roomId with
       | some r => if r ≠ "" then [FilterCond.matchEq "roomId" (.str r)] else []
       | none => []) }

/-- `searchMemoriesByEmbedding`: validates the embedding dimension
(failing with a descriptive error and no remote call), cleans the
vector element-wise, and issues one similarity search with default
limit 10 and default threshold 0. -/
def searchMemoriesByEmbedding (st : AdapterState) (db : Db) (embedding : List JSNum)
    (p : SMBEParams) : Except String (List MemoryRead) × List RemoteCall :=
  if embedding.length ≠ st.vectorSize then
    (.error ("Invalid embedding dimension: expected " ++ toString st.vectorSize ++
       ", got " ++ toString embedding.length), [])
  else
    let cleanVector := embedding.map cleanNum
    let req : SearchReq :=
      { vector := cleanVector,
        limit := some (jsOrNat p.count 10),
        score_threshold := some (jsOrQ p.match_threshold 0),
        filter := some (smbeFilter p),
        with_payload := some true,
        with_vector := some true }
    (.ok ((db.search req).map memoryFromEmbeddingRow), [.search req])

/-- Parameters of `getMemories`; `end_` stands for the source's `end`
parameter (a Lean keyword). -/
structure GetMemoriesParams where
  roomId : String
  count : Option ℕ := none
  unique : Option Bool := none
  tableName : String
  agentId : Option String := none
  start : Option ℚ := none
  end_ : Option ℚ := none

/-- The filter built by `getMemories`: `type` and `roomId` always;
`unique` (as its string form) and `agentId` when truthy; a `createdAt`
range when a truthy `start` and/or `end` bound is supplied. -/
def getMemoriesFilter (p : GetMemoriesParams) : QFilter :=
  { must :=
      [FilterCond.matchEq "type" (.str p.tableName),
       FilterCond.matchEq "roomId" (.str p.roomId)] ++
      (match p.unique with
       | some u => if u then [FilterCond.matchEq "unique" (.str (boolToString u))] else []
       | none => []) ++
      (match p.agentId with
       | some a => if a ≠ "" then [FilterCond.matchEq "agentId" (.str a)] else []
       | none => []) ++
      (if optQTruthy p.start || optQTruthy p.end_ then
         [FilterCond.range "createdAt"
            (if optQTruthy p.start then p.start else none)
            (if optQTruthy p.end_ then p.end_ else none)]
       else []) }

/-- `getMemories`: requires `tableName` and `roomId` (throwing before
any remote call otherwise), then issues one scroll with
`limit: params.count || 100` and maps the points. -/
def getMemories (db : Db) (p : GetMemoriesParams) :
    Except String (List MemoryRead) × List RemoteCall :=
  if p.tableName = "" then (.error "tableName is required", [])
  else if p.roomId = "" then (.error "roomId is required", [])
  else
    let req : ScrollReq :=
      { limit := jsOrNat p.count 100,
        filter := getMemoriesFilter p,
        with_payload := true,
        with_vector := true }
    (.ok ((db.scroll req).map memoryFromScrollRow), [.scroll req])

/-- Parameters of `searchMemories` (all required in the source). -/
structure SearchMemoriesParams where
  tableName : String
  agentId : String
  roomId : String
  embedding : List JSNum
  match_threshold : ℚ
  match_count : ℕ
  unique : Bool

/-- The filter built by `searchMemories`: `type`, `roomId`, `agentId`
always; `unique` (as its string form) when true. -/
def searchMemoriesFilter (p : SearchMemoriesParams) : QFilter :=
  { must :=
      [FilterCond.matchEq "type" (.str p.tableName),
       FilterCond.matchEq "roomId" (.str p.roomId),
       FilterCond.matchEq "agentId" (.str p.agentId)] ++
      (if p.unique then [FilterCond.matchEq "unique" (.str (boolToString p.unique))] else []) }

/-- `searchMemories`: one similarity search with the caller-supplied
threshold and count (no dimension check and no cleaning here). -/
def searchMemories (db : Db) (p : SearchMemoriesParams) :
    List MemoryRead × List RemoteCall :=
  let req : SearchReq :=
    { vector := p.embedding,
      limit := some p.match_count,
      score_threshold := some p.match_threshold,
      filter := some (searchMemoriesFilter p),
      with_payload := some true,
      with_vector := some true }
  ((db.search req).map memoryFromSearchRow, [.search req])

/-- The point built by `createMemory`.  `freshId` models the `v4()`
random id used when `memory.id` is falsy; the `id` payload entry is
omitted when `memory.id` is `undefined` (JSON drops `undefined`
fields). -/
def createMemoryPoint (st : AdapterState) (m : MemoryInput) (tableName : String)
    (isUnique : Bool) (freshId : String) (now : ℚ) : UPoint :=
  { id := buildQdrantID (match m.id with
                         | some i => if i ≠ "" then i else freshId
                         | none => freshId)
    vector := match m.embedding with
              | some e => e
              | none => List.replicate st.vectorSize (.fin 0)
    payload :=
      (match m.id with | some i => [("id", PValue.str i)] | none => []) ++
      [("type", PValue.str tableName),
       ("content", m.content),
       ("userId", PValue.str m.userId),
       ("roomId", PValue.str m.roomId),
       ("agentId", PValue.str m.agentId),
       ("unique", PValue.bool (m.unique.getD isUnique)),
       ("createdAt", PValue.num now)] }

/-- `createMemory`: when the memory carries an embedding, first runs
`searchMemoriesByEmbedding` against the same room and table with
threshold 0.95 and count 1, and the emptiness of that result replaces
the initial `unique ?? true`; the stored flag is
`memory.unique ?? isUnique`.  A dimension error from the pre-check
propagates and nothing is upserted. -/
def createMemory (st : AdapterState) (db : Db) (m : MemoryInput) (tableName : String)
    (unique : Option Bool) (freshId : String) (now : ℚ) :
    Except String Unit × List RemoteCall :=
  match m.embedding with
  | some emb =>
      let pre := searchMemoriesByEmbedding st db emb
        { tableName := tableName, roomId := some m.roomId,
          match_threshold := some (decimalLit 95 2), count := some 1 }  -- 0.95
      match pre.1 with
      | .error e => (.error e, pre.2)
      | .ok similar =>
          let isUnique := similar.length == 0
          (.ok (), pre.2 ++
            [.upsert { wait := true,
                       points := [createMemoryPoint st m tableName isUnique freshId now] }])
  | none =>
      let isUnique := unique.getD true
      (.ok (), [.upsert { wait := true,
                          points := [createMemoryPoint st m tableName isUnique freshId now] }])

/-
The content normalizer `preprocess` is a chain of 14 global
`String.prototype.replace` calls.  The regexes are embedded through a
small backtracking matcher with JavaScript semantics: leftmost match,
greedy and lazy quantifiers, capture groups, multiline anchors, and
`.` not matching a line terminator.
-/

/-- ECMAScript line terminators (`\n`, `\r`, LS, PS). -/
def isLineTerm (c : Char) : Bool :=
  c == '\n' || c == '\r' || c.toNat == 8232 || c.toNat == 8233

/-- JS `\s`: WhiteSpace plus LineTerminator characters. -/
def isWsJS (c : Char) : Bool :=
  c == ' ' || c == '\t' || c == '\n' || c == '\r' ||
  c.toNat == 11 || c.toNat == 12 ||
  c.toNat == 160 || c.toNat == 5760 ||
  (8192 ≤ c.toNat && c.toNat ≤ 8202) ||
  c.toNat == 8232 || c.toNat == 8233 ||
  c.toNat == 8239 || c.toNat == 8287 ||
  c.toNat == 12288 || c.toNat == 65279

/-- Pattern AST for the regexes used by `preprocess`. -/
inductive Pat where
  | epsilon
  | ch (p : Char → Bool)
  | seq (a b : Pat)
  | alt (a b : Pat)
  | rep (lo : ℕ) (hi : Option ℕ) (greedy : Bool) (a : Pat)
  | group (idx : ℕ) (a : Pat)
  | bol
  | eol

/-- A literal character. -/
def Pat.lit (c : Char) : Pat := .ch (fun d => d == c)

/-- A literal string. -/
def Pat.strLit (s : String) : Pat := (s.toList.map Pat.lit).foldr Pat.seq Pat.epsilon

/-- `.` (any character but a line terminator; no `s` flag is used). -/
def Pat.dot : Pat := .ch (fun c => !isLineTerm c)

/-- `[\s\S]` (any character). -/
def Pat.anyNL : Pat := .ch (fun _ => true)

/-- `*` / `*?`. -/
def Pat.star (greedy : Bool) (a : Pat) : Pat := .rep 0 none greedy a

/-- `+` / `+?`. -/
def Pat.plus (greedy : Bool) (a : Pat) : Pat := .rep 1 none greedy a

/-- `?` / `??`. -/
def Pat.quest (greedy : Bool) (a : Pat) : Pat := .rep 0 (some 1) greedy a

/-- Captured groups of a match: (index, start, stop), most recent
first. -/
abbrev Caps := List (ℕ × ℕ × ℕ)

/-- The character at a position. -/
def charAt (s : List Char) (i : ℕ) : Option Char := (s.drop i).head?

/-- The backtracking matcher in continuation-passing style: try `p` at
`pos` and continue with `k`; the result is the first match in JS
backtracking order.  The fuel, decremented on every recursive call,
makes the recursion structural; `regexReplace` supplies more than the
search can consume. -/
def mrun (s : List Char) :
    ℕ → Pat → ℕ → Caps → (ℕ → Caps → Option (ℕ × Caps)) → Option (ℕ × Caps)
  | 0, _, _, _, _ => none
  | fuel + 1, p, pos, caps, k =>
    match p with
    | .epsilon => k pos caps
    | .ch f =>
        match charAt s pos with
        | some c => if f c then k (pos + 1) caps else none
        | none => none
    | .seq a b => mrun s fuel a pos caps (fun pos1 caps1 => mrun s fuel b pos1 caps1 k)
    | .alt a b =>
        match mrun s fuel a pos caps k with
        | some r => some r
        | none => mrun s fuel b pos caps k
    | .group i a =>
        mrun s fuel a pos caps (fun pos1 caps1 => k pos1 ((i, pos, pos1) :: caps1))
    | .bol =>
        if pos == 0 || (charAt s (pos - 1)).any isLineTerm then k pos caps else none
    | .eol =>
        if pos == s.length || (charAt s pos).any isLineTerm then k pos caps else none
    | .rep lo hi greedy a =>
      match lo with
      | lo1 + 1 =>
          mrun s fuel a pos caps (fun pos1 caps1 =>
            mrun s fuel (.rep lo1 (hi.map (fun h => h - 1)) greedy a) pos1 caps1 k)
      | 0 =>
          match hi with
          | some 0 => k pos caps
          | _ =>
            let more := mrun s fuel a pos caps (fun pos1 caps1 =>
              if pos1 == pos then none
              else mrun s fuel (.rep 0 (hi.map (fun h => h - 1)) greedy a) pos1 caps1 k)
            if greedy then
              match more with
              | some r => some r
              | none => k pos caps
            else
              match k pos caps with
              | some r => some r
              | none => more

/-- Leftmost-match search from `pos`, trying successive start
positions as a global `replace` does; returns (start, stop, caps). -/
def findFrom (s : List Char) (fuel : ℕ) (p : Pat) : ℕ → ℕ → Option (ℕ × ℕ × Caps)
  | 0, _ => none
  | tries + 1, pos =>
      match mrun s fuel p pos [] (fun e caps => some (e, caps)) with
      | some (e, caps) => some (pos, e, caps)
      | none => findFrom s fuel p tries (pos + 1)

/-- Replacement template item: literal text or `$n`. -/
inductive TmplItem where
  | lit (s : String)
  | grp (n : ℕ)

/-- Expand a template against the captures of a match; a group that did
not participate expands to the empty string, as in JS. -/
def expandTmpl (s : List Char) (caps : Caps) : List TmplItem → String
  | [] => ""
  | .lit t :: rest => t ++ expandTmpl s caps rest
  | .grp n :: rest =>
      (match caps.find? (fun c => c.1 == n) with
       | some (_, a, b) => String.mk ((s.drop a).take (b - a))
       | none => "") ++ expandTmpl s caps rest

/-- One global `replace` pass: repeatedly find the leftmost match,
substitute the template, and continue after the match, skipping one
input character when the match was empty (JS `lastIndex` handling). -/
def replaceAllFrom (s : List Char) (fuel : ℕ) (p : Pat) (tmpl : List TmplItem) :
    ℕ → ℕ → String
  | 0, pos => String.mk (s.drop pos)
  | steps + 1, pos =>
      match findFrom s fuel p (s.length + 1 - pos) pos with
      | none => String.mk (s.drop pos)
      | some (m0, m1, caps) =>
          String.mk ((s.drop pos).take (m0 - pos)) ++ expandTmpl s caps tmpl ++
          (if m1 == m0 then
             (match charAt s m1 with
              | some c => String.mk [c]
              | none => "") ++ replaceAllFrom s fuel p tmpl steps (m1 + 1)
           else replaceAllFrom s fuel p tmpl steps m1)

/-- `s.replace(pattern, template)` with a global pattern. -/
def regexReplace (p : Pat) (tmpl : List TmplItem) (s : String) : String :=
  let cs := s.toList
  replaceAllFrom cs ((cs.length + 8) * (cs.length + 8) * 32) p tmpl (cs.length + 1) 0

/-- Regex 1: fenced code blocks, `/```[\s\S]*?```/g`. -/
def pCodeBlock : Pat :=
  .seq (Pat.strLit "```") (.seq (Pat.star false Pat.anyNL) (Pat.strLit "```"))

/-- Regex 2: inline code spans. -/
def pInlineCode : Pat :=
  .seq (Pat.lit '`') (.seq (Pat.star false Pat.dot) (Pat.lit '`'))

/-- Regex 3: heading markers, `/#{1,6}\s*(.*)/g` replaced by `$1`. -/
def pHeading : Pat :=
  .seq (.rep 1 (some 6) true (Pat.lit '#'))
    (.seq (Pat.star true (.ch isWsJS)) (.group 1 (Pat.star true Pat.dot)))

/-- Regex 4: image markup replaced by its alt text. -/
def pImage : Pat :=
  .seq (Pat.strLit "![")
    (.seq (.group 1 (Pat.star false Pat.dot))
      (.seq (Pat.strLit "](") (.seq (Pat.star false Pat.dot) (Pat.lit ')'))))

/-- Regex 5: link markup replaced by its link text. -/
def pLink : Pat :=
  .seq (Pat.strLit "[")
    (.seq (.group 1 (Pat.star false Pat.dot))
      (.seq (Pat.strLit "](") (.seq (Pat.star false Pat.dot) (Pat.lit ')'))))

/-- Regex 6: `/(https?:\/\/)?(www\.)?([^\s]+\.[^\s]+)/g` replaced by
`$3`. -/
def pUrl : Pat :=
  .seq (.quest true (.group 1
          (.seq (Pat.strLit "http") (.seq (.quest true (Pat.lit 's')) (Pat.strLit "://")))))
    (.seq (.quest true (.group 2 (Pat.strLit "www.")))
      (.group 3 (.seq (Pat.plus true (.ch (fun c => !isWsJS c)))
        (.seq (Pat.lit '.') (Pat.plus true (.ch (fun c => !isWsJS c)))))))

/-- Regex 7: user/mention tags `/<@[!&]?\d+>/g`. -/
def pMention : Pat :=
  .seq (Pat.strLit "<@")
    (.seq (.quest true (.ch (fun c => c == '!' || c == '&')))
      (.seq (Pat.plus true (.ch Char.isDigit)) (Pat.lit '>')))

/-- Regex 8: remaining angle-bracket tags `/<[^>]*>/g`. -/
def pTag : Pat :=
  .seq (Pat.lit '<') (.seq (Pat.star true (.ch (fun c => c != '>'))) (Pat.lit '>'))

/-- Regex 9: horizontal-rule lines `/^\s*[-*_]{3,}\s*$/gm`. -/
def pHr : Pat :=
  .seq .bol
    (.seq (Pat.star true (.ch isWsJS))
      (.seq (.rep 3 none true (.ch (fun c => c == '-' || c == '*' || c == '_')))
        (.seq (Pat.star true (.ch isWsJS)) .eol)))

/-- Regex 10: block comments `/\/\*[\s\S]*?\*\//g`. -/
def pBlockComment : Pat :=
  .seq (Pat.strLit "/*") (.seq (Pat.star false Pat.anyNL) (Pat.strLit "*/"))

/-- Regex 11: line comments `/\/\/.*/g`. -/
def pLineComment : Pat := .seq (Pat.strLit "//") (Pat.star true Pat.dot)

/-- Regex 12: whitespace runs collapsed to one space. -/
def pWsRun : Pat := Pat.plus true (.ch isWsJS)

/-- Regex 13: three or more newlines collapsed to two. -/
def pNlRun : Pat := .rep 3 none true (Pat.lit '\n')

/-- Regex 14: any character outside
`[a-zA-Z0-9\s\-_./:?=&]` is dropped. -/
def pDisallowed : Pat :=
  .ch (fun c =>
    !(c.isAlpha || c.isDigit || isWsJS c ||
      c == '-' || c == '_' || c == '.' || c == '/' ||
      c == ':' || c == '?' || c == '=' || c == '&'))

/-- `String.prototype.trim` (strips JS whitespace on both ends). -/
def jsTrim (s : String) : String :=
  String.mk ((s.toList.dropWhile isWsJS).reverse.dropWhile isWsJS).reverse

/-- `preprocess`: the guard for falsy input, the 14 replace passes in
source order, and the final `trim`. -/
def preprocess (content : String) : String :=
  if content = "" then ""
  else jsTrim
    (regexReplace pDisallowed [] <|
     regexReplace pNlRun [.lit "\n\n"] <|
     regexReplace pWsRun [.lit " "] <|
     regexReplace pLineComment [] <|
     regexReplace pBlockComment [] <|
     regexReplace pHr [] <|
     regexReplace pTag [] <|
     regexReplace pMention [] <|
     regexReplace pUrl [.grp 3] <|
     regexReplace pLink [.grp 1] <|
     regexReplace pImage [.grp 1] <|
     regexReplace pHeading [.grp 1] <|
     regexReplace pInlineCode [] <|
     regexReplace pCodeBlock [] content)

/-
Concrete fixtures and small helpers used by the theorems below.
-/

/-- A store oracle that returns no points for any request. -/
def emptyDb : Db :=
  { search := fun _ => [], scroll := fun _ => [], retrieve := fun _ => [] }

/-- A sample row the store could return. -/
def sampleRow : RPoint :=
  { id := "point-1", score := some (decimalLit 9 1),  -- 0.9
    payload := [("agentId", .str "agent-1"), ("createdAt", .num 7)],
    vector := some [.fin 1, .fin 2] }

/-- A store oracle whose similarity search returns one row. -/
def oneRowDb : Db :=
  { search := fun _ => [sampleRow], scroll := fun _ => [], retrieve := fun _ => [] }

/-- A three-dimensional adapter with an empty cache. -/
def st3 : AdapterState := { vectorSize := 3, cacheM := [] }

/-- A sample memory carrying a three-dimensional embedding and no
`unique` field of its own. -/
def memA : MemoryInput :=
  { id := some "mem-1", userId := "user-1", roomId := "room-1", agentId := "agent-1",
    content := .obj [("text", .str "hello")],
    embedding := some [.fin 1, .fin 0, .fin 0],
    unique := none }

/-- A sample knowledge record with a non-empty embedding. -/
def knowA : KnowledgeInput :=
  { id := "11111111-1111-1111-1111-111111111111", agentId := "agent-1",
    text := "some text", metadata := none,
    embedding := some [.fin 1, .fin 2, .fin 3], createdAt := some 7 }

/-- Reading back a written point as a store row: the store echoes the
point's id, payload and vector (no similarity score on a plain read). -/
def rowOfUPoint (pt : UPoint) : RPoint :=
  { id := pt.id, score := none, payload := pt.payload, vector := some pt.vector }

/-- The payload key a filter condition constrains. -/
def condKey : FilterCond → String
  | .matchEq k _ => k
  | .range k _ _ => k

theorem assocGet_assocSet {α : Type} (l : List (String × α)) (k : String) (v : α) :
    assocGet (assocSet l k v) k = some v := by
  induction l with
  | nil => simp [assocSet, assocGet]
  | cons hd tl ih =>
      obtain ⟨k1, w⟩ := hd
      by_cases hk : k1 = k
      · simp [assocSet, hk, assocGet]
      · simp [assocSet, hk, assocGet, ih]

/-
Theorems settling the claims.
-/

/-- C7 counterexample: the content normalizer is not idempotent — a
second application changes the result of a first one. -/
theorem preprocess_idempotence_counterexample :
    preprocess (preprocess "a/€/b") ≠ preprocess "a/€/b" := by decide

/-- C7 (amended): `preprocess` is a pure string transform but it is not
idempotent: dropping a disallowed character can join two slashes into a
`//` line-comment marker, which only the next application strips
(`preprocess "a/€/b" = "a//b"` while `preprocess "a//b" = "a"`). -/
theorem preprocess_not_idempotent :
    preprocess "a/€/b" = "a//b" ∧ preprocess "a//b" = "a" :=
  ⟨by decide, by decide⟩

/-- C6: `searchMemoriesByEmbedding` with an embedding whose length
differs from the configured `vectorSize` fails with the descriptive
dimension-mismatch error and issues no remote call; with an embedding
of the correct length the validation error is not raised. -/
theorem searchMemoriesByEmbedding_dimension_guard (st : AdapterState) (db : Db)
    (emb : List JSNum) (p : SMBEParams) :
    (emb.length ≠ st.vectorSize →
      (searchMemoriesByEmbedding st db emb p).1 =
        .error ("Invalid embedding dimension: expected " ++ toString st.vectorSize ++
          ", got " ++ toString emb.length) ∧
      (searchMemoriesByEmbedding st db emb p).2 = []) ∧
    (emb.length = st.vectorSize →
      ∃ rs, (searchMemoriesByEmbedding st db emb p).1 = Except.ok rs) := by
  constructor
  · intro h
    simp [searchMemoriesByEmbedding, h]
  · intro h
    have hcond : ¬emb.length ≠ st.vectorSize := by simp [h]
    have heq : (searchMemoriesByEmbedding st db emb p).1 =
        Except.ok ((db.search
          { vector := emb.map cleanNum, limit := some (jsOrNat p.count 10),
            score_threshold := some (jsOrQ p.match_threshold 0),
            filter := some (smbeFilter p),
            with_payload := some true, with_vector := some true }).map
          memoryFromEmbeddingRow) := by
      unfold searchMemoriesByEmbedding
      rw [if_neg hcond]
    exact ⟨_, heq⟩

/-- Witness for C6: concrete mismatching and matching calls. -/
theorem searchMemoriesByEmbedding_dimension_guard_witness :
    ((searchMemoriesByEmbedding st3 emptyDb [.fin 1] { tableName := "facts" }).1 =
        Except.error "Invalid embedding dimension: expected 3, got 1" ∧
      (searchMemoriesByEmbedding st3 emptyDb [.fin 1] { tableName := "facts" }).2 = []) ∧
    ∃ rs, (searchMemoriesByEmbedding st3 emptyDb [.fin 1, .fin 2, .fin 3]
        { tableName := "facts" }).1 = Except.ok rs :=
  ⟨(searchMemoriesByEmbedding_dimension_guard st3 emptyDb [.fin 1]
      { tableName := "facts" }).1 (by decide),
   (searchMemoriesByEmbedding_dimension_guard st3 emptyDb [.fin 1, .fin 2, .fin 3]
      { tableName := "facts" }).2 rfl⟩

/-- C8: the vector passed to the store by `searchMemoriesByEmbedding`
is the query embedding cleaned element-wise — non-finite entries become
0 and finite entries are rounded to 6 decimal places. -/
theorem searchMemoriesByEmbedding_clean_vector (st : AdapterState) (db : Db)
    (emb : List JSNum) (p : SMBEParams) (h : emb.length = st.vectorSize) :
    ((searchMemoriesByEmbedding st db emb p).2.map RemoteCall.searchVector) =
      [some (emb.map cleanNum)] ∧
    cleanNum .nan = .fin 0 ∧ cleanNum .posInf = .fin 0 ∧ cleanNum .negInf = .fin 0 ∧
    ∀ q : ℚ, cleanNum (.fin q) = .fin (toFixed6 q) := by
  refine ⟨?_, rfl, rfl, rfl, fun q => rfl⟩
  simp [searchMemoriesByEmbedding, h, RemoteCall.searchVector]

set_option maxRecDepth 100000 in
/-- Witness for C8: `[1.0, NaN, 0.123456789]` with `vectorSize = 3` is
passed downstream as `[1.0, 0, 0.123457]`. -/
theorem searchMemoriesByEmbedding_clean_vector_witness :
    [JSNum.fin 1, JSNum.nan, JSNum.fin (decimalLit 123456789 9)].map cleanNum =
      [JSNum.fin 1, JSNum.fin 0, JSNum.fin (decimalLit 123457 6)] ∧
    ((searchMemoriesByEmbedding st3 emptyDb [.fin 1, .nan, .fin (decimalLit 123456789 9)]
        { tableName := "facts" }).2.map RemoteCall.searchVector) =
      [some [JSNum.fin 1, JSNum.fin 0, JSNum.fin (decimalLit 123457 6)]] := by
  have h := searchMemoriesByEmbedding_clean_vector st3 emptyDb
    [.fin 1, .nan, .fin (decimalLit 123456789 9)] { tableName := "facts" } (by decide)
  exact ⟨by decide, h.1.trans (by decide)⟩

/-- The search request `searchKnowledge` issues on a cache miss. -/
def skSearchReq (p : SearchKnowledgeParams) : SearchReq :=
  { vector := p.embedding, limit := none, score_threshold := none,
    filter := none, with_payload := none, with_vector := some true }

/-- The cache key `searchKnowledge` computes. -/
def skCacheKey (p : SearchKnowledgeParams) : String :=
  p.agentId ++ ":" ++ jsNumListToString p.embedding

theorem searchKnowledge_hit (st : AdapterState) (db : Db) (p : SearchKnowledgeParams)
    (cached : List KnowledgeRead) (h : getCache st p.agentId (skCacheKey p) = some cached) :
    searchKnowledge st db p = (cached, st, []) := by
  simp only [skCacheKey] at h
  simp only [searchKnowledge, h]

theorem searchKnowledge_miss_eq (st : AdapterState) (db : Db) (p : SearchKnowledgeParams)
    (h : getCache st p.agentId (skCacheKey p) = none) :
    searchKnowledge st db p =
      ((db.search (skSearchReq p)).map knowledgeFromSearchRow,
       (setCache st p.agentId (skCacheKey p)
         ((db.search (skSearchReq p)).map knowledgeFromSearchRow)).1,
       [RemoteCall.search (skSearchReq p)]) := by
  simp only [skCacheKey] at h
  simp only [searchKnowledge, h, skSearchReq, skCacheKey]

/-- A sample `searchKnowledge` call. -/
def skA : SearchKnowledgeParams := { agentId := "agent-1", embedding := [.fin 1, .fin 2] }

/-- C1 counterexample: on a cache miss (empty cache) the single remote
call of `searchKnowledge` is a similarity search carrying the query
embedding, not an id-based retrieval. -/
theorem searchKnowledge_similarity_search_counterexample :
    (searchKnowledge st3 oneRowDb
        { agentId := "agent-1", embedding := [.fin 1, .fin 2] }).2.2 =
      [RemoteCall.search
        { vector := [.fin 1, .fin 2], limit := none, score_threshold := none,
          filter := none, with_payload := none, with_vector := some true }] ∧
    ((searchKnowledge st3 oneRowDb
        { agentId := "agent-1", embedding := [.fin 1, .fin 2] }).2.2.all
      fun c => !c.isRetrieveCall) = true :=
  ⟨rfl, rfl⟩

/-- C1 (amended): for every call whose cache lookup misses, the single
remote call issued by `searchKnowledge` is an unfiltered,
unthresholded similarity search with the query embedding (and
`with_vector: true`); no id-based retrieval is issued. -/
theorem searchKnowledge_miss_issues_similarity_search (st : AdapterState) (db : Db)
    (p : SearchKnowledgeParams)
    (h : getCache st p.agentId (skCacheKey p) = none) :
    (searchKnowledge st db p).2.2 = [RemoteCall.search (skSearchReq p)] ∧
    ((searchKnowledge st db p).2.2.all fun c => !c.isRetrieveCall) = true := by
  rw [searchKnowledge_miss_eq st db p h]
  exact ⟨rfl, rfl⟩

/-- Witness for C1 (amended) at a concrete miss. -/
theorem searchKnowledge_miss_issues_similarity_search_witness :
    (searchKnowledge st3 oneRowDb skA).2.2 = [RemoteCall.search (skSearchReq skA)] ∧
    ((searchKnowledge st3 oneRowDb skA).2.2.all fun c => !c.isRetrieveCall) = true :=
  searchKnowledge_miss_issues_similarity_search st3 oneRowDb skA rfl

/-- C2: two `searchKnowledge` calls with identical agent and embedding
issue exactly one remote call in total; the first call writes its result
under the key `agentId:embedding.toString()` and the second returns the
cached result unchanged, issuing no remote call. -/
theorem searchKnowledge_cache_roundtrip (st : AdapterState) (db : Db)
    (p : SearchKnowledgeParams)
    (h : getCache st p.agentId (skCacheKey p) = none) :
    (searchKnowledge st db p).2.2.length +
      (searchKnowledge (searchKnowledge st db p).2.1 db p).2.2.length = 1 ∧
    getCache (searchKnowledge st db p).2.1 p.agentId
        (p.agentId ++ ":" ++ jsNumListToString p.embedding) =
      some (searchKnowledge st db p).1 ∧
    (searchKnowledge (searchKnowledge st db p).2.1 db p).1 = (searchKnowledge st db p).1 ∧
    (searchKnowledge (searchKnowledge st db p).2.1 db p).2.2 = [] := by
  have miss := searchKnowledge_miss_eq st db p h
  have hcache : getCache (searchKnowledge st db p).2.1 p.agentId (skCacheKey p) =
      some (searchKnowledge st db p).1 := by
    rw [miss]
    simp only [getCache, setCache]
    exact assocGet_assocSet st.cacheM _ _
  have hit := searchKnowledge_hit (searchKnowledge st db p).2.1 db p
    (searchKnowledge st db p).1 hcache
  refine ⟨?_, hcache, ?_, ?_⟩
  · rw [hit, miss]
    rfl
  · rw [hit]
  · rw [hit]

/-- Witness for C2 at a concrete repeated call. -/
theorem searchKnowledge_cache_roundtrip_witness :
    (searchKnowledge st3 oneRowDb skA).2.2.length +
      (searchKnowledge (searchKnowledge st3 oneRowDb skA).2.1 oneRowDb skA).2.2.length = 1 ∧
    getCache (searchKnowledge st3 oneRowDb skA).2.1 skA.agentId
        (skA.agentId ++ ":" ++ jsNumListToString skA.embedding) =
      some (searchKnowledge st3 oneRowDb skA).1 ∧
    (searchKnowledge (searchKnowledge st3 oneRowDb skA).2.1 oneRowDb skA).1 =
      (searchKnowledge st3 oneRowDb skA).1 ∧
    (searchKnowledge (searchKnowledge st3 oneRowDb skA).2.1 oneRowDb skA).2.2 = [] :=
  searchKnowledge_cache_roundtrip st3 oneRowDb skA rfl

/-- C9 counterexample: with `count: 0` supplied, the scroll issued by
`getMemories` is limited to 100, not to `params.count`. -/
theorem getMemories_count_zero_counterexample :
    (getMemories emptyDb { roomId := "r1", tableName := "facts", count := some 0 }).2 =
      [RemoteCall.scroll
        { limit := 100,
          filter := { must := [FilterCond.matchEq "type" (.str "facts"),
                               FilterCond.matchEq "roomId" (.str "r1")] },
          with_payload := true, with_vector := true }] ∧
    (100 : ℕ) ≠ 0 :=
  ⟨rfl, by decide⟩

/-- C9 (amended): `getMemories` fails with an error and no remote call
when `tableName` or `roomId` is missing (falsy); otherwise it issues
one scroll whose limit is `params.count` when that is a nonzero count
and 100 when the count is unspecified or 0, and returns the mapped
records (with their vectors read from the returned rows). -/
theorem getMemories_validation_and_scroll (db : Db) (p : GetMemoriesParams) :
    (p.tableName = "" →
      (getMemories db p).1 = .error "tableName is required" ∧ (getMemories db p).2 = []) ∧
    (p.tableName ≠ "" → p.roomId = "" →
      (getMemories db p).1 = .error "roomId is required" ∧ (getMemories db p).2 = []) ∧
    (p.tableName ≠ "" → p.roomId ≠ "" →
      (getMemories db p).2 =
        [RemoteCall.scroll
          { limit := jsOrNat p.count 100, filter := getMemoriesFilter p,
            with_payload := true, with_vector := true }] ∧
      (getMemories db p).1 =
        .ok ((db.scroll
          { limit := jsOrNat p.count 100, filter := getMemoriesFilter p,
            with_payload := true, with_vector := true }).map memoryFromScrollRow)) := by
  refine ⟨fun h1 => ?_, fun h1 h2 => ?_, fun h1 h2 => ?_⟩
  · simp [getMemories, h1]
  · simp [getMemories, h1, h2]
  · simp [getMemories, h1, h2]

/-- An invalid listing request (no table name). -/
def gmEmpty : GetMemoriesParams := { roomId := "r1", tableName := "" }

/-- A valid listing request with a nonzero count. -/
def gmOk : GetMemoriesParams := { roomId := "r1", tableName := "facts", count := some 2 }

/-- Witness for C9 (amended): a rejected call and an accepted call. -/
theorem getMemories_validation_and_scroll_witness :
    ((getMemories emptyDb gmEmpty).1 = .error "tableName is required" ∧
      (getMemories emptyDb gmEmpty).2 = []) ∧
    ((getMemories emptyDb gmOk).2 =
      [RemoteCall.scroll
        { limit := jsOrNat gmOk.count 100, filter := getMemoriesFilter gmOk,
          with_payload := true, with_vector := true }] ∧
     (getMemories emptyDb gmOk).1 =
      .ok ((emptyDb.scroll
        { limit := jsOrNat gmOk.count 100, filter := getMemoriesFilter gmOk,
          with_payload := true, with_vector := true }).map memoryFromScrollRow)) :=
  ⟨(getMemories_validation_and_scroll emptyDb gmEmpty).1 rfl,
   (getMemories_validation_and_scroll emptyDb gmOk).2.2 (by decide) (by decide)⟩

/-- C5 counterexample: with the uniqueness flag supplied as `false`,
the filter built for listing contains no condition on the `unique` key
at all (no equality with its string form). -/
theorem getMemoriesFilter_unique_false_counterexample :
    (getMemoriesFilter
        { roomId := "r1", tableName := "facts", unique := some false,
          start := some 100, end_ := some 200 }).must =
      [FilterCond.matchEq "type" (.str "facts"),
       FilterCond.matchEq "roomId" (.str "r1"),
       FilterCond.range "createdAt" (some 100) (some 200)] ∧
    ((getMemoriesFilter
        { roomId := "r1", tableName := "facts", unique := some false,
          start := some 100, end_ := some 200 }).must.all
      fun c => condKey c != "unique") = true :=
  ⟨rfl, rfl⟩

/-- C5 (amended): the listing filter is a pure conjunction with
equality conditions for the type tag and room always, the uniqueness
condition (compared as the string form) exactly when the flag is
supplied as `true` (a supplied `false` adds no condition), the agentId
equality when a non-empty agentId is supplied, and a createdAt range
when a truthy `start`/`end` is supplied; for the spec's example the
conjunction is exactly the four conditions. -/
theorem getMemoriesFilter_conditions (p : GetMemoriesParams)
    (hu : p.unique = some true) (ha : p.agentId = none)
    (hs : optQTruthy p.start = true) (he : optQTruthy p.end_ = true) :
    (getMemoriesFilter p).must =
      [FilterCond.matchEq "type" (.str p.tableName),
       FilterCond.matchEq "roomId" (.str p.roomId),
       FilterCond.matchEq "unique" (.str "true"),
       FilterCond.range "createdAt" p.start p.end_] := by
  simp [getMemoriesFilter, hu, ha, hs, he, boolToString]

/-- The spec's filter example:
`{tableName:"facts", roomId:"r1", unique:true, start:100, end:200}`. -/
def gmClaimEx : GetMemoriesParams :=
  { roomId := "r1", tableName := "facts", unique := some true,
    start := some 100, end_ := some 200 }

/-- Witness for C5 (amended): the example filter is exactly the four
conditions. -/
theorem getMemoriesFilter_conditions_witness :
    (getMemoriesFilter gmClaimEx).must =
      [FilterCond.matchEq "type" (.str gmClaimEx.tableName),
       FilterCond.matchEq "roomId" (.str gmClaimEx.roomId),
       FilterCond.matchEq "unique" (.str "true"),
       FilterCond.range "createdAt" gmClaimEx.start gmClaimEx.end_] :=
  getMemoriesFilter_conditions gmClaimEx rfl rfl (by decide) (by decide)

/-- C10: `createMemory` stores the `unique` payload field as a boolean
while the filters built by `getMemories` and `searchMemories` with a
true uniqueness flag match the string `"true"`, and a boolean payload
value is never equal to that string value. -/
theorem unique_flag_type_mismatch (st : AdapterState) (db : Db) (m : MemoryInput)
    (tbl : String) (unique : Option Bool) (freshId : String) (now : ℚ)
    (hdim : match m.embedding with
            | some e => e.length = st.vectorSize
            | none => True) :
    (∃ b : Bool,
      storedUniqueValues (createMemory st db m tbl unique freshId now).2 = [PValue.bool b]) ∧
    (∀ gp : GetMemoriesParams, gp.unique = some true →
      FilterCond.matchEq "unique" (PValue.str "true") ∈ (getMemoriesFilter gp).must) ∧
    (∀ sp : SearchMemoriesParams, sp.unique = true →
      FilterCond.matchEq "unique" (PValue.str "true") ∈ (searchMemoriesFilter sp).must) ∧
    (∀ b : Bool, PValue.bool b ≠ PValue.str "true") := by
  refine ⟨?_, ?_, ?_, fun b h => PValue.noConfusion h⟩
  · cases hm : m.embedding with
    | none =>
        refine ⟨m.unique.getD (unique.getD true), ?_⟩
        cases hid : m.id <;>
          simp [createMemory, hm, hid, createMemoryPoint, storedUniqueValues, pget]
    | some e =>
        rw [hm] at hdim
        have hcond : ¬e.length ≠ st.vectorSize := by simp [hdim]
        refine ⟨m.unique.getD
          (((db.search
            { vector := e.map cleanNum, limit := some (jsOrNat (some 1) 10),
              score_threshold := some (jsOrQ (some (decimalLit 95 2)) 0),
              filter := some (smbeFilter
                { tableName := tbl, roomId := some m.roomId,
                  match_threshold := some (decimalLit 95 2), count := some 1 }),
              with_payload := some true, with_vector := some true }).map
            memoryFromEmbeddingRow).length == 0), ?_⟩
        cases hid : m.id <;>
          simp [createMemory, hm, hid, searchMemoriesByEmbedding, hcond,
            createMemoryPoint, storedUniqueValues, pget]
  · intro gp hgp
    simp [getMemoriesFilter, hgp, boolToString]
  · intro sp hsp
    simp [searchMemoriesFilter, hsp, boolToString]

/-- Witness for C10 at a concrete write and the two concrete filters. -/
theorem unique_flag_type_mismatch_witness :
    (∃ b : Bool,
      storedUniqueValues (createMemory st3 emptyDb memA "facts" none "fresh-1" 5).2 =
        [PValue.bool b]) ∧
    (∀ gp : GetMemoriesParams, gp.unique = some true →
      FilterCond.matchEq "unique" (PValue.str "true") ∈ (getMemoriesFilter gp).must) ∧
    (∀ sp : SearchMemoriesParams, sp.unique = true →
      FilterCond.matchEq "unique" (PValue.str "true") ∈ (searchMemoriesFilter sp).must) ∧
    (∀ b : Bool, PValue.bool b ≠ PValue.str "true") :=
  unique_flag_type_mismatch st3 emptyDb memA "facts" none "fresh-1" 5 rfl

/-- C3 counterexample: the caller passes `unique := false` for a memory
carrying an embedding, the store reports no similar memories, and the
stored uniqueness flag is `true` — with an embedding present the
`unique` argument is ignored, so the caller's value is not the one
stored. -/
theorem createMemory_unique_argument_counterexample :
    storedUniqueValues (createMemory st3 emptyDb memA "facts" (some false) "fresh-1" 5).2 =
      [PValue.bool true] ∧
    PValue.bool true ≠ PValue.bool false :=
  ⟨rfl, fun h => Bool.noConfusion (PValue.bool.inj h)⟩

/-- C3 (amended): for a memory carrying an embedding (of the configured
dimension, with a non-empty roomId), `createMemory` first issues a
similarity search restricted to the same room and table with threshold
0.95 and limit 1, then the upsert; the search result decides the stored
uniqueness flag only when the memory record's own `unique` field is
absent — when `memory.unique` is present that value is stored — and the
caller's `unique` argument has no effect on the stored flag. -/
theorem createMemory_dedup_and_stored_flag (st : AdapterState) (db : Db) (m : MemoryInput)
    (tbl : String) (unique : Option Bool) (freshId : String) (now : ℚ) (emb : List JSNum)
    (hemb : m.embedding = some emb) (hlen : emb.length = st.vectorSize)
    (hroom : m.roomId ≠ "") :
    ∃ req point,
      (createMemory st db m tbl unique freshId now).2 =
        [RemoteCall.search req, RemoteCall.upsert { wait := true, points := [point] }] ∧
      req.vector = emb.map cleanNum ∧
      req.score_threshold = some (decimalLit 95 2) ∧
      req.limit = some 1 ∧
      req.filter = some { must := [FilterCond.matchEq "type" (.str tbl),
                                   FilterCond.matchEq "roomId" (.str m.roomId)] } ∧
      pget point.payload "unique" =
        some (.bool (m.unique.getD
          (((db.search req).map memoryFromEmbeddingRow).length == 0))) := by
  have hcond : ¬emb.length ≠ st.vectorSize := by simp [hlen]
  refine ⟨{ vector := emb.map cleanNum, limit := some (jsOrNat (some 1) 10),
            score_threshold := some (jsOrQ (some (decimalLit 95 2)) 0),
            filter := some (smbeFilter
              { tableName := tbl, roomId := some m.roomId,
                match_threshold := some (decimalLit 95 2), count := some 1 }),
            with_payload := some true, with_vector := some true },
          createMemoryPoint st m tbl
            (((db.search
              { vector := emb.map cleanNum, limit := some (jsOrNat (some 1) 10),
                score_threshold := some (jsOrQ (some (decimalLit 95 2)) 0),
                filter := some (smbeFilter
                  { tableName := tbl, roomId := some m.roomId,
                    match_threshold := some (decimalLit 95 2), count := some 1 }),
                with_payload := some true, with_vector := some true }).map
              memoryFromEmbeddingRow).length == 0) freshId now,
          ?_, rfl, rfl, rfl, ?_, ?_⟩
  · simp [createMemory, hemb, searchMemoriesByEmbedding, hcond]
  · simp [smbeFilter, hroom]
  · cases hid : m.id <;> simp [createMemoryPoint, hid, pget]

/-- Witness for C3 (amended) at a concrete memory write. -/
theorem createMemory_dedup_and_stored_flag_witness :
    ∃ req point,
      (createMemory st3 emptyDb memA "facts" (some false) "fresh-1" 5).2 =
        [RemoteCall.search req, RemoteCall.upsert { wait := true, points := [point] }] ∧
      req.vector = [JSNum.fin 1, JSNum.fin 0, JSNum.fin 0].map cleanNum ∧
      req.score_threshold = some (decimalLit 95 2) ∧
      req.limit = some 1 ∧
      req.filter = some { must := [FilterCond.matchEq "type" (.str "facts"),
                                   FilterCond.matchEq "roomId" (.str memA.roomId)] } ∧
      pget point.payload "unique" =
        some (.bool (memA.unique.getD
          (((emptyDb.search req).map memoryFromEmbeddingRow).length == 0))) :=
  createMemory_dedup_and_stored_flag st3 emptyDb memA "facts" (some false) "fresh-1" 5
    [JSNum.fin 1, JSNum.fin 0, JSNum.fin 0] rfl rfl (by decide)

set_option maxRecDepth 400000 in
/-- C4 counterexample: reading back the point written for `knowA` does
not reproduce its id — the stored point id is the namespace-hashed v5
UUID of the record id, not the record id itself. -/
theorem knowledge_roundtrip_id_counterexample :
    (knowledgeFromRetrievedRow (rowOfUPoint (createKnowledgePoint 5 knowA))).id ≠
      knowA.id := by
  decide

/-- C4 (amended): for a knowledge record with a non-empty embedding
that is not marked shared, reading back the written point reproduces
the agentId and the embedding; the text reads back empty (it is written
under `content.text` but read from the `description` payload key), and
the id reads back as the derived v5 UUID of the record id rather than
the record id itself. -/
theorem knowledge_roundtrip_amended (now : ℚ) (k : KnowledgeInput) (v : List JSNum)
    (hemb : k.embedding = some v) (_hv : v ≠ [])
    (hshared : knowledgeIsShared k = false) :
    (knowledgeFromRetrievedRow (rowOfUPoint (createKnowledgePoint now k))).agentId =
      .str k.agentId ∧
    (knowledgeFromRetrievedRow (rowOfUPoint (createKnowledgePoint now k))).embedding =
      some v ∧
    (knowledgeFromRetrievedRow (rowOfUPoint (createKnowledgePoint now k))).text = "" ∧
    (knowledgeFromRetrievedRow (rowOfUPoint (createKnowledgePoint now k))).id =
      buildQdrantID k.id := by
  refine ⟨?_, ?_, ?_, rfl⟩
  · by_cases ha : k.agentId = "" <;>
      simp [knowledgeFromRetrievedRow, rowOfUPoint, createKnowledgePoint, hshared,
        pget, jsOr, pvTruthy, ha]
  · simp [knowledgeFromRetrievedRow, rowOfUPoint, createKnowledgePoint, hemb]
  · simp [knowledgeFromRetrievedRow, rowOfUPoint, createKnowledgePoint, pget, jsOr, stringJS]

/-- Witness for C4 (amended) at the concrete record `knowA`. -/
theorem knowledge_roundtrip_amended_witness :
    (knowledgeFromRetrievedRow (rowOfUPoint (createKnowledgePoint 5 knowA))).agentId =
      .str knowA.agentId ∧
    (knowledgeFromRetrievedRow (rowOfUPoint (createKnowledgePoint 5 knowA))).embedding =
      some [.fin 1, .fin 2, .fin 3] ∧
    (knowledgeFromRetrievedRow (rowOfUPoint (createKnowledgePoint 5 knowA))).text = "" ∧
    (knowledgeFromRetrievedRow (rowOfUPoint (createKnowledgePoint 5 knowA))).id =
      buildQdrantID knowA.id :=
  knowledge_roundtrip_amended 5 knowA [.fin 1, .fin 2, .fin 3] rfl (by decide) rfl

end Qdrant
